import Mathlib

/-!
Verification development for the polygon-mcp repository.

The repository wraps Polygon.io REST endpoints as MCP tools.  Every tool is
an adapter of the same shape (src/src/mcp_polygon/server.py): it forwards its
named parameters to the single corresponding upstream client method with
raw response requested, decodes the raw bytes as UTF-8, parses the text as
JSON and returns the parsed value; any exception raised in that pipeline is
caught and turned into an error object whose single field maps the key
error to the string form of the exception.  The entrypoint
(src/entrypoint.py) reads the API key and the transport selector from the
environment and runs the server.

The development embeds that pipeline and the concrete adapters the claims
name, together with the entrypoint logic, and proves the claims about them.
-/

namespace PolygonMcp

/-- Model of a Python runtime value as forwarded by an adapter: the adapters
never inspect these, they only pass them through to the upstream client by
keyword. -/
inductive PyVal where
  | vStr (s : String)
  | vInt (n : Int)
  | vBool (b : Bool)
  | vNone
  | vDate (iso : String)
  | vDateTime (iso : String)
  | vDict (fields : List (String × PyVal))

/-- Model of a Python exception: only its string form (what str(e) returns)
is observable to the adapter layer.  The string may be empty, as it is for
an exception constructed with no message. -/
structure Exc where
  msg : String
deriving DecidableEq

/-- A value of the Union type of str, int, datetime and date accepted by
several date-like adapter parameters. -/
inductive TsArg where
  | str (s : String)
  | int (n : Int)
  | dtime (iso : String)
  | dt (iso : String)
deriving DecidableEq

/-- View a TsArg as the runtime value that is forwarded. -/
def TsArg.toPy : TsArg → PyVal
  | .str s => .vStr s
  | .int n => .vInt n
  | .dtime iso => .vDateTime iso
  | .dt iso => .vDate iso

/-- An optional Python parameter: absent parameters are forwarded as None. -/
def optPy (f : α → PyVal) : Option α → PyVal
  | none => .vNone
  | some x => f x

/-- Keyword arguments of one upstream client call, in source order. -/
abbrev Kwargs := List (String × PyVal)

/-- Raw response bytes of the upstream client. -/
abbrev Bytes := List Nat

/-- JSON values as produced by the decode step.  Numbers are kept in exact
decimal form as mantissa times ten to the exp10, so the literal 185.64
parses to jnum 18564 (-2). -/
inductive Json where
  | jnull
  | jbool (b : Bool)
  | jnum (mant : Int) (exp10 : Int)
  | jstr (s : String)
  | jarr (elems : List Json)
  | jobj (fields : List (String × Json))

/-- The fixed error payload shape of every adapter: a single-field object
mapping the key error to the given string. -/
def errObj (s : String) : Json := .jobj [("error", .jstr s)]

/-! ### UTF-8 decoding (model of bytes.decode with the utf-8 codec) -/

/-- Is the byte a UTF-8 continuation byte. -/
def isCont (b : Nat) : Bool := 0x80 ≤ b && b < 0xC0

/-- Decode a UTF-8 byte sequence into characters, rejecting stray or missing
continuation bytes, overlong encodings, surrogate code points and code
points beyond 0x10FFFF, as the strict Python utf-8 codec does.  The fuel is
the number of remaining bytes, enough since each step consumes at least one
byte. -/
def utf8DecodeAux : Nat → List Nat → Option (List Char)
  | _, [] => some []
  | 0, _ :: _ => none
  | fuel + 1, b :: rest =>
    if b < 0x80 then
      (utf8DecodeAux fuel rest).map (fun cs => Char.ofNat b :: cs)
    else if b < 0xC2 then
      none
    else if b < 0xE0 then
      match rest with
      | b1 :: rest1 =>
        if isCont b1 then
          (utf8DecodeAux fuel rest1).map
            (fun cs => Char.ofNat ((b - 0xC0) * 0x40 + (b1 - 0x80)) :: cs)
        else none
      | _ => none
    else if b < 0xF0 then
      match rest with
      | b1 :: b2 :: rest2 =>
        if isCont b1 && isCont b2 then
          let cp := (b - 0xE0) * 0x1000 + (b1 - 0x80) * 0x40 + (b2 - 0x80)
          if cp < 0x800 then none
          else if 0xD800 ≤ cp && cp < 0xE000 then none
          else (utf8DecodeAux fuel rest2).map (fun cs => Char.ofNat cp :: cs)
        else none
      | _ => none
    else if b < 0xF5 then
      match rest with
      | b1 :: b2 :: b3 :: rest3 =>
        if isCont b1 && isCont b2 && isCont b3 then
          let cp := (b - 0xF0) * 0x40000 + (b1 - 0x80) * 0x1000 +
            (b2 - 0x80) * 0x40 + (b3 - 0x80)
          if cp < 0x10000 then none
          else if 0x110000 ≤ cp then none
          else (utf8DecodeAux fuel rest3).map (fun cs => Char.ofNat cp :: cs)
        else none
      | _ => none
    else none

/-- Decode raw bytes as UTF-8 text; none models a raised UnicodeDecodeError. -/
def utf8Decode (bs : Bytes) : Option (List Char) := utf8DecodeAux bs.length bs

/-- The exception raised when the raw bytes are not valid UTF-8 (model of
UnicodeDecodeError: its message is never empty). -/
def utf8DecodeErr : Exc := ⟨"utf-8 codec cannot decode the response bytes"⟩

/-! ### JSON parsing (model of json.loads) -/

/-- Skip JSON whitespace: space, tab, line feed and carriage return, given
here by code point. -/
def skipWs : List Char → List Char
  | [] => []
  | c :: cs =>
    if c.toNat = 32 ∨ c.toNat = 9 ∨ c.toNat = 10 ∨ c.toNat = 13 then skipWs cs
    else c :: cs

/-- Value of a hexadecimal digit, stated on code points: decimal digits
occupy 48 to 57, the lowercase letters a to f occupy 97 to 102, and the
uppercase letters A to F occupy 65 to 70. -/
def hexVal (c : Char) : Option Nat :=
  let n := c.toNat
  if 48 ≤ n ∧ n ≤ 57 then some (n - 48)
  else if 97 ≤ n ∧ n ≤ 102 then some (n - 87)
  else if 65 ≤ n ∧ n ≤ 70 then some (n - 55)
  else none

/-- Parse the body of a JSON string after the opening quote, handling the
escape sequences json.loads accepts; fuel is the number of remaining
characters. -/
def parseStrBody : Nat → List Char → Except Exc (String × List Char)
  | 0, _ => .error ⟨"Unterminated string"⟩
  | _ + 1, [] => .error ⟨"Unterminated string"⟩
  | fuel + 1, c :: cs =>
    if c = '"' then .ok ("", cs)
    else if c = '\\' then
      match cs with
      | [] => .error ⟨"Unterminated string"⟩
      | e :: cs1 =>
        let esc : Option (Char × List Char) :=
          if e = '"' then some ('"', cs1)
          else if e = '\\' then some ('\\', cs1)
          else if e = '/' then some ('/', cs1)
          else if e = 'b' then some (Char.ofNat 8, cs1)
          else if e = 'f' then some (Char.ofNat 12, cs1)
          else if e = 'n' then some ('\n', cs1)
          else if e = 'r' then some ('\r', cs1)
          else if e = 't' then some ('\t', cs1)
          else if e = 'u' then
            match cs1 with
            | h1 :: h2 :: h3 :: h4 :: cs2 =>
              match hexVal h1, hexVal h2, hexVal h3, hexVal h4 with
              | some v1, some v2, some v3, some v4 =>
                some (Char.ofNat (((v1 * 16 + v2) * 16 + v3) * 16 + v4), cs2)
              | _, _, _, _ => none
            | _ => none
          else none
        match esc with
        | none => .error ⟨"Invalid escape"⟩
        | some (ch, cs2) =>
          (parseStrBody fuel cs2).map (fun r => (String.mk (ch :: r.1.toList), r.2))
    else if c.toNat < 0x20 then .error ⟨"Invalid control character"⟩
    else (parseStrBody fuel cs).map (fun r => (String.mk (c :: r.1.toList), r.2))

/-- Take a maximal run of decimal digits, returned as their numeric values,
together with the remaining characters. -/
def takeDigits : List Char → List Nat × List Char
  | [] => ([], [])
  | c :: cs =>
    if 48 ≤ c.toNat ∧ c.toNat ≤ 57 then
      match takeDigits cs with
      | (ds, rem) => ((c.toNat - 48) :: ds, rem)
    else ([], c :: cs)

/-- Combine a run of digit values into the natural number they spell. -/
def digitsToNat (ds : List Nat) : Nat := ds.foldl (fun acc d => acc * 10 + d) 0

/-- Parse a JSON number starting at the given characters: optional minus
sign, integer digits, optional fraction and optional exponent, yielding the
exact decimal value as mantissa and power of ten. -/
def parseNum (cs : List Char) : Except Exc (Json × List Char) :=
  let (isNeg, afterSign) :=
    match cs with
    | c :: tail => if c = '-' then (true, tail) else (false, cs)
    | [] => (false, cs)
  let (wholeDs, afterWhole) := takeDigits afterSign
  if wholeDs.isEmpty then .error ⟨"Expecting value"⟩
  else
    let (fracDs, afterFrac) :=
      match afterWhole with
      | c :: tail =>
        if c = '.' then
          match takeDigits tail with
          | (ds, rem) => (ds, rem)
        else ([], afterWhole)
      | [] => ([], afterWhole)
    if (match afterWhole with | c :: _ => c = '.' | [] => false) && fracDs.isEmpty then
      .error ⟨"Expecting digits after decimal point"⟩
    else
      let pExp : List Char → Except Exc (Int × List Char) := fun inp =>
        match inp with
        | c :: tail =>
          if c = 'e' || c = 'E' then
            let (eSign, afterESign) :=
              match tail with
              | d :: tail2 =>
                if d = '-' then ((-1 : Int), tail2)
                else if d = '+' then ((1 : Int), tail2)
                else ((1 : Int), tail)
              | [] => ((1 : Int), tail)
            let (expDs, afterExp) := takeDigits afterESign
            if expDs.isEmpty then .error ⟨"Expecting digits in exponent"⟩
            else .ok (eSign * (digitsToNat expDs : Int), afterExp)
          else .ok (0, inp)
        | [] => .ok (0, inp)
      (pExp afterFrac).map (fun r =>
        let magnitude : Nat := digitsToNat (wholeDs ++ fracDs)
        let mant : Int := if isNeg then -(magnitude : Int) else (magnitude : Int)
        (Json.jnum mant (r.1 - (fracDs.length : Int)), r.2))

/-- Insert a key into an object with Python dict semantics: a repeated key
overwrites the earlier value in place, keeping the first insertion position. -/
def objInsert (k : String) (v : Json) : List (String × Json) → List (String × Json)
  | [] => [(k, v)]
  | (k0, v0) :: rest =>
    if k0 = k then (k0, v) :: rest else (k0, v0) :: objInsert k v rest

mutual

/-- Parse one JSON value; the fuel bounds the recursion depth. -/
def pVal : Nat → List Char → Except Exc (Json × List Char)
  | 0, _ => .error ⟨"Expecting value"⟩
  | fuel + 1, cs =>
    match skipWs cs with
    | [] => .error ⟨"Expecting value"⟩
    | c :: rest =>
      if c = 'n' then
        match rest with
        | 'u' :: 'l' :: 'l' :: rest1 => .ok (.jnull, rest1)
        | _ => .error ⟨"Expecting value"⟩
      else if c = 't' then
        match rest with
        | 'r' :: 'u' :: 'e' :: rest1 => .ok (.jbool true, rest1)
        | _ => .error ⟨"Expecting value"⟩
      else if c = 'f' then
        match rest with
        | 'a' :: 'l' :: 's' :: 'e' :: rest1 => .ok (.jbool false, rest1)
        | _ => .error ⟨"Expecting value"⟩
      else if c = '"' then
        (parseStrBody rest.length rest).map (fun r => (Json.jstr r.1, r.2))
      else if c = '\x7b' then
        pObjItems fuel (skipWs rest) [] true
      else if c = '[' then
        pArrItems fuel (skipWs rest) [] true
      else
        parseNum (c :: rest)

/-- Parse the items of an array after the opening bracket; the flag marks
whether we are before the first item. -/
def pArrItems : Nat → List Char → List Json → Bool → Except Exc (Json × List Char)
  | 0, _, _, _ => .error ⟨"Expecting value"⟩
  | _ + 1, [], _, _ => .error ⟨"Expecting value or close bracket"⟩
  | fuel + 1, c :: rest, acc, first =>
    if c = ']' && first then .ok (.jarr [], rest)
    else
      match pVal fuel (c :: rest) with
      | .error e => .error e
      | .ok (v, rest1) =>
        match skipWs rest1 with
        | ',' :: rest2 => pArrItems fuel (skipWs rest2) (acc ++ [v]) false
        | ']' :: rest2 => .ok (.jarr (acc ++ [v]), rest2)
        | _ => .error ⟨"Expecting comma delimiter"⟩

/-- Parse the members of an object after the opening brace; the flag marks
whether we are before the first member. -/
def pObjItems : Nat → List Char → List (String × Json) → Bool →
    Except Exc (Json × List Char)
  | 0, _, _, _ => .error ⟨"Expecting value"⟩
  | _ + 1, [], _, _ => .error ⟨"Expecting property name"⟩
  | fuel + 1, c :: rest, acc, first =>
    if c = '\x7d' && first then .ok (.jobj [], rest)
    else if c = '"' then
      match parseStrBody rest.length rest with
      | .error e => .error e
      | .ok (k, rest1) =>
        match skipWs rest1 with
        | ':' :: rest2 =>
          match pVal fuel rest2 with
          | .error e => .error e
          | .ok (v, rest3) =>
            match skipWs rest3 with
            | ',' :: rest4 => pObjItems fuel (skipWs rest4) (objInsert k v acc) false
            | '\x7d' :: rest4 => .ok (.jobj (objInsert k v acc), rest4)
            | _ => .error ⟨"Expecting comma delimiter"⟩
        | _ => .error ⟨"Expecting colon delimiter"⟩
    else .error ⟨"Expecting property name"⟩

end

/-- Parse a whole JSON document, rejecting trailing garbage, as json.loads
does; an error models a raised JSONDecodeError. -/
def jsonParse (cs : List Char) : Except Exc Json :=
  match pVal (2 * cs.length + 8) cs with
  | .error e => .error e
  | .ok (v, rest) =>
    match skipWs rest with
    | [] => .ok v
    | _ => .error ⟨"Extra data"⟩

/-! ### The uniform adapter pipeline

Every tool body in src/src/mcp_polygon/server.py has exactly this shape:
inside a try block it calls its one upstream client method with its keyword
arguments and raw response requested, decodes the result bytes as UTF-8,
parses them as JSON and returns the value; the except branch catches every
exception e and returns the object mapping error to str(e). -/

/-- The decode-and-catch part of every adapter body, applied to the outcome
of the upstream call: the success value is the parsed JSON, every raised
exception becomes the error object. -/
def adapterBody (res : Except Exc Bytes) : Json :=
  match res with
  | .error e => errObj e.msg
  | .ok bs =>
    match utf8Decode bs with
    | none => errObj utf8DecodeErr.msg
    | some cs =>
      match jsonParse cs with
      | .error e => errObj e.msg
      | .ok v => v

/-- The exception raised inside the try block of an adapter, if any: by the
upstream call itself, by the UTF-8 decode, or by the JSON parse. -/
def adapterRaised (res : Except Exc Bytes) : Option Exc :=
  match res with
  | .error e => some e
  | .ok bs =>
    match utf8Decode bs with
    | none => some utf8DecodeErr
    | some cs =>
      match jsonParse cs with
      | .error e => some e
      | .ok _ => none

/-- One adapter invocation against an upstream client: the adapter computes
its keyword arguments from its typed parameters, issues the single upstream
call, and pipes the outcome through the uniform body.  The first component
is the trace of upstream calls the invocation issues. -/
def invokeAdapter (kwargsOf : α → Kwargs) (client : Kwargs → Except Exc Bytes)
    (a : α) : List Kwargs × Json :=
  ([kwargsOf a], adapterBody (client (kwargsOf a)))

/-- Two successive invocations of the same adapter with the same arguments:
the adapters hold no state, so the second invocation is the same computation
again; the trace concatenates the calls of both invocations. -/
def invokeAdapterTwice (kwargsOf : α → Kwargs) (client : Kwargs → Except Exc Bytes)
    (a : α) : List Kwargs × (Json × Json) :=
  let r1 := invokeAdapter kwargsOf client a
  let r2 := invokeAdapter kwargsOf client a
  (r1.1 ++ r2.1, (r1.2, r2.2))

/-! ### Concrete adapters named by the claims

Each adapter is embedded as its typed parameter record, the keyword-argument
list it forwards to its upstream client method (in source order, with the
raw flag, exactly the assignments written in the source), and the invocation
built from the uniform pipeline. -/

/-- Parameters of the get_aggs tool, as declared in its signature. -/
structure GetAggsArgs where
  ticker : String
  multiplier : Int
  timespan : String
  from_ : TsArg
  «to» : TsArg
  adjusted : Option Bool
  sort : Option String
  limit : Option Int
  params : Option (List (String × PyVal))

/-- Keyword arguments get_aggs forwards to polygon_client.get_aggs. -/
def get_aggs_kwargs (a : GetAggsArgs) : Kwargs :=
  [("ticker", .vStr a.ticker),
   ("multiplier", .vInt a.multiplier),
   ("timespan", .vStr a.timespan),
   ("from_", a.from_.toPy),
   ("to", a.«to».toPy),
   ("adjusted", optPy PyVal.vBool a.adjusted),
   ("sort", optPy PyVal.vStr a.sort),
   ("limit", optPy PyVal.vInt a.limit),
   ("params", optPy PyVal.vDict a.params),
   ("raw", .vBool true)]

/-- The get_aggs adapter applied to an upstream client. -/
def get_aggs (client : Kwargs → Except Exc Bytes) (a : GetAggsArgs) :
    List Kwargs × Json :=
  invokeAdapter get_aggs_kwargs client a

/-- Parameters of the get_daily_open_close_agg tool, as declared in its
signature. -/
structure GetDailyOpenCloseAggArgs where
  ticker : String
  date : String
  adjusted : Option Bool
  params : Option (List (String × PyVal))

/-- Keyword arguments get_daily_open_close_agg forwards to
polygon_client.get_daily_open_close_agg. -/
def get_daily_open_close_agg_kwargs (a : GetDailyOpenCloseAggArgs) : Kwargs :=
  [("ticker", .vStr a.ticker),
   ("date", .vStr a.date),
   ("adjusted", optPy PyVal.vBool a.adjusted),
   ("params", optPy PyVal.vDict a.params),
   ("raw", .vBool true)]

/-- The get_daily_open_close_agg adapter applied to an upstream client. -/
def get_daily_open_close_agg (client : Kwargs → Except Exc Bytes)
    (a : GetDailyOpenCloseAggArgs) : List Kwargs × Json :=
  invokeAdapter get_daily_open_close_agg_kwargs client a

/-- Parameters of the list_treasury_yields tool, as declared in its
signature: note that the signature declares date_any_of. -/
structure ListTreasuryYieldsArgs where
  date : Option TsArg
  date_any_of : Option String
  date_lt : Option TsArg
  date_lte : Option TsArg
  date_gt : Option TsArg
  date_gte : Option TsArg
  limit : Option Int
  sort : Option String
  order : Option String
  params : Option (List (String × PyVal))

/-- The parameter names of the list_treasury_yields signature, in order. -/
def list_treasury_yields_sig : List String :=
  ["date", "date_any_of", "date_lt", "date_lte", "date_gt", "date_gte",
   "limit", "sort", "order", "params"]

/-- Keyword arguments list_treasury_yields forwards to
polygon_client.list_treasury_yields: the source omits date_any_of from the
call, although the signature declares it. -/
def list_treasury_yields_kwargs (a : ListTreasuryYieldsArgs) : Kwargs :=
  [("date", optPy TsArg.toPy a.date),
   ("date_lt", optPy TsArg.toPy a.date_lt),
   ("date_lte", optPy TsArg.toPy a.date_lte),
   ("date_gt", optPy TsArg.toPy a.date_gt),
   ("date_gte", optPy TsArg.toPy a.date_gte),
   ("limit", optPy PyVal.vInt a.limit),
   ("sort", optPy PyVal.vStr a.sort),
   ("order", optPy PyVal.vStr a.order),
   ("params", optPy PyVal.vDict a.params),
   ("raw", .vBool true)]

/-- The list_treasury_yields adapter applied to an upstream client. -/
def list_treasury_yields (client : Kwargs → Except Exc Bytes)
    (a : ListTreasuryYieldsArgs) : List Kwargs × Json :=
  invokeAdapter list_treasury_yields_kwargs client a

/-- Parameters of the list_inflation tool, as declared in its signature. -/
structure ListInflationArgs where
  date : Option TsArg
  date_any_of : Option String
  date_gt : Option TsArg
  date_gte : Option TsArg
  date_lt : Option TsArg
  date_lte : Option TsArg
  limit : Option Int
  sort : Option String
  params : Option (List (String × PyVal))

/-- Keyword arguments list_inflation forwards to
polygon_client.list_inflation: this sibling adapter does forward its
date_any_of parameter. -/
def list_inflation_kwargs (a : ListInflationArgs) : Kwargs :=
  [("date", optPy TsArg.toPy a.date),
   ("date_any_of", optPy PyVal.vStr a.date_any_of),
   ("date_gt", optPy TsArg.toPy a.date_gt),
   ("date_gte", optPy TsArg.toPy a.date_gte),
   ("date_lt", optPy TsArg.toPy a.date_lt),
   ("date_lte", optPy TsArg.toPy a.date_lte),
   ("limit", optPy PyVal.vInt a.limit),
   ("sort", optPy PyVal.vStr a.sort),
   ("params", optPy PyVal.vDict a.params),
   ("raw", .vBool true)]

/-- The list_inflation adapter applied to an upstream client. -/
def list_inflation (client : Kwargs → Except Exc Bytes)
    (a : ListInflationArgs) : List Kwargs × Json :=
  invokeAdapter list_inflation_kwargs client a

/-! ### Entry point (src/entrypoint.py)

start_server reads POLYGON_API_KEY with empty default, prints a warning or a
startup line, computes the transport as the value of MCP_TRANSPORT if that
is truthy and the string stdio otherwise, and calls server.run with it.
Nothing in the body can raise, which the embedding records by always
returning an ok outcome. -/

/-- Python or-expression over an optional environment value: None and the
empty string are falsy, so both fall back to the default. -/
def pyEnvOr (v : Option String) (dflt : String) : String :=
  match v with
  | none => dflt
  | some s => if s = "" then dflt else s

/-- Observable outcome of start_server: the lines it printed, the transport
string it passed to server.run, and whether it reached the server.run call. -/
structure StartResult where
  printed : List String
  transport : String
  serverRan : Bool
deriving DecidableEq

/-- The startup warning printed when the API key is absent or empty. -/
def apiKeyWarning : String :=
  "Warning: POLYGON_API_KEY environment variable not set."

/-- Embedding of start_server from src/entrypoint.py over an environment
mapping variable names to their optional values.  An error outcome would
model an exception escaping startup; the body has no raising step, so the
result is always ok. -/
def start_server (env : String → Option String) : Except Exc StartResult :=
  let polygon_api_key := (env "POLYGON_API_KEY").getD ""
  let line :=
    if polygon_api_key = "" then apiKeyWarning
    else "Starting Polygon MCP server with API key configured."
  let mcp_transport := pyEnvOr (env "MCP_TRANSPORT") "stdio"
  .ok ⟨[line], mcp_transport, true⟩

/-- The transport the started server runs under, if startup succeeds. -/
def startedTransport (env : String → Option String) : Option String :=
  match start_server env with
  | .ok r => some r.transport
  | .error _ => none

/-- Bytes of an ASCII string literal, as a Python byte literal of the same
characters. -/
def strBytes (s : String) : Bytes := s.toList.map Char.toNat

/-! ### Claims -/

/-- C1: the claim states that every adapter forwards every parameter of its
signature to its upstream call, in particular that list_treasury_yields
forwards date_any_of.  This theorem evaluates the code at that point:
date_any_of is a parameter of the list_treasury_yields signature, yet for
every argument record the keyword-argument list the adapter passes to
polygon_client.list_treasury_yields does not contain it, so the supplied
date_any_of value is silently dropped. -/
theorem claimC1_date_any_of_dropped :
    "date_any_of" ∈ list_treasury_yields_sig ∧
    ∀ a : ListTreasuryYieldsArgs,
      "date_any_of" ∉ (list_treasury_yields_kwargs a).map Prod.fst := by
  constructor
  · decide
  · intro a
    have hnames : (list_treasury_yields_kwargs a).map Prod.fst =
        ["date", "date_lt", "date_lte", "date_gt", "date_gte",
         "limit", "sort", "order", "params", "raw"] := rfl
    rw [hnames]
    decide

/-- C2: for every adapter (any keyword-argument map over any parameter type)
and any upstream client, whenever some step of the pipeline raises an
exception e — the upstream call itself, the UTF-8 decode, or the JSON
parse — the invocation returns exactly the object mapping the key error to
str(e), and, the result being a plain value, no exception propagates out of
the adapter. -/
theorem claimC2_error_containment {α : Type} (kwargsOf : α → Kwargs)
    (client : Kwargs → Except Exc Bytes) (a : α) (e : Exc)
    (h : adapterRaised (client (kwargsOf a)) = some e) :
    (invokeAdapter kwargsOf client a).2 = errObj e.msg := by
  cases hc : client (kwargsOf a) with
  | error e0 =>
    simp only [adapterRaised, hc, Option.some.injEq] at h
    subst h
    simp only [invokeAdapter, adapterBody, hc]
  | ok bs =>
    cases hd : utf8Decode bs with
    | none =>
      simp only [adapterRaised, hc, hd, Option.some.injEq] at h
      subst h
      simp only [invokeAdapter, adapterBody, hc, hd]
    | some cs =>
      cases hp : jsonParse cs with
      | error e0 =>
        simp only [adapterRaised, hc, hd, hp, Option.some.injEq] at h
        subst h
        simp only [invokeAdapter, adapterBody, hc, hd, hp]
      | ok v =>
        simp only [adapterRaised, hc, hd, hp] at h
        exact Option.noConfusion h

/-- Witness for C2 at a concrete instance: a stub client whose call raises a
connection error with message timeout makes the adapter return the error
object with exactly that message. -/
theorem claimC2_witness :
    adapterRaised ((fun _ : Kwargs => (Except.error ⟨"timeout"⟩ : Except Exc Bytes))
      ((fun _ : Unit => ([] : Kwargs)) ())) = some ⟨"timeout"⟩ ∧
    (invokeAdapter (fun _ : Unit => ([] : Kwargs))
      (fun _ => Except.error ⟨"timeout"⟩) ()).2 = errObj "timeout" :=
  ⟨rfl, claimC2_error_containment _ _ _ _ rfl⟩

/-- C3: for every adapter and upstream client, when the upstream call
succeeds with raw bytes that decode as UTF-8 and parse as JSON, the
invocation returns exactly that parsed value: the composition of json parse
with utf-8 decode applied to the raw bytes, with nothing added, renamed or
removed. -/
theorem claimC3_no_transformation {α : Type} (kwargsOf : α → Kwargs)
    (client : Kwargs → Except Exc Bytes) (a : α) (bs : Bytes)
    (cs : List Char) (v : Json)
    (hc : client (kwargsOf a) = .ok bs)
    (hd : utf8Decode bs = some cs)
    (hp : jsonParse cs = .ok v) :
    (invokeAdapter kwargsOf client a).2 = v := by
  simp only [invokeAdapter, adapterBody, hc, hd, hp]

/-- Witness for C3 at a concrete instance: a stub client returning the bytes
of a small JSON array makes the adapter return exactly its parsed value. -/
theorem claimC3_witness :
    ((fun _ : Kwargs => (Except.ok [91, 49, 93] : Except Exc Bytes))
      ((fun _ : Unit => ([] : Kwargs)) ())) = Except.ok [91, 49, 93] ∧
    utf8Decode [91, 49, 93] = some ('[' :: '1' :: ']' :: []) ∧
    jsonParse ('[' :: '1' :: ']' :: []) = .ok (Json.jarr [Json.jnum 1 0]) ∧
    (invokeAdapter (fun _ : Unit => ([] : Kwargs))
      (fun _ => Except.ok [91, 49, 93]) ()).2 = Json.jarr [Json.jnum 1 0] :=
  ⟨rfl, rfl, rfl, claimC3_no_transformation _ _ _ _ _ _ rfl rfl rfl⟩

/-- C4: every adapter invocation issues exactly one upstream call — the call
trace of an invocation is the one-element list holding the forwarded
keyword arguments, whatever the client outcome is, so the count is never
zero on success and never more than one on failure (no retry). -/
theorem claimC4_exactly_one_call {α : Type} (kwargsOf : α → Kwargs)
    (client : Kwargs → Except Exc Bytes) (a : α) :
    (invokeAdapter kwargsOf client a).1 = [kwargsOf a] ∧
    (invokeAdapter kwargsOf client a).1.length = 1 :=
  ⟨rfl, rfl⟩

/-- Stub client for the C5 counterexample: its call raises an exception
whose string form is empty, as for a Python exception constructed with no
message. -/
def c5client : Kwargs → Except Exc Bytes := fun _ => .error ⟨""⟩

/-- Concrete arguments for the C5 counterexample invocation of get_aggs. -/
def c5input : GetAggsArgs :=
  ⟨"AAPL", 1, "day", .str "2024-01-01", .str "2024-01-31",
    none, none, none, none⟩

/-- C5 counterexample: the claim asserts the error string is non-empty for
every possible exception, including one whose message is empty, but a
client raising an exception with empty message makes get_aggs return the
error object with the empty string, so no non-empty string matches the
result. -/
theorem claimC5_counterexample :
    (get_aggs c5client c5input).2 = errObj "" ∧
    ∀ s, s ≠ "" → (get_aggs c5client c5input).2 ≠ errObj s := by
  have h0 : (get_aggs c5client c5input).2 = errObj "" := rfl
  refine ⟨h0, ?_⟩
  intro s hs h
  have h2 : errObj s = errObj "" := h.symm.trans h0
  simp only [errObj, Json.jobj.injEq, List.cons.injEq, Prod.mk.injEq,
    Json.jstr.injEq, and_true, true_and] at h2
  exact hs h2

/-- C5 as amended: whenever the upstream call raises an exception e, the
adapter returns the object mapping the key error to str(e) and propagates
no exception; str(e) is empty exactly when the message of e is empty, so
the string is not guaranteed to be non-empty. -/
theorem claimC5_amended {α : Type} (kwargsOf : α → Kwargs)
    (client : Kwargs → Except Exc Bytes) (a : α) (e : Exc)
    (h : client (kwargsOf a) = .error e) :
    (invokeAdapter kwargsOf client a).2 = errObj e.msg := by
  simp only [invokeAdapter, adapterBody, h]

/-- Witness for the amended C5 at a concrete instance: a client raising an
exception whose message is connection refused yields the error object with
that message. -/
theorem claimC5_amended_witness :
    ((fun _ : Kwargs => (Except.error ⟨"connection refused"⟩ : Except Exc Bytes))
      ((fun _ : Unit => ([] : Kwargs)) ())) = Except.error ⟨"connection refused"⟩ ∧
    (invokeAdapter (fun _ : Unit => ([] : Kwargs))
      (fun _ => Except.error ⟨"connection refused"⟩) ()).2 = errObj "connection refused" :=
  ⟨rfl, claimC5_amended _ _ _ _ rfl⟩

/-- C6: invoking any adapter twice with identical arguments issues two
independent upstream calls — the combined trace is the two-element list
repeating the same forwarded keyword arguments, so the upstream call count
equals the invocation count and nothing is cached between invocations. -/
theorem claimC6_no_caching {α : Type} (kwargsOf : α → Kwargs)
    (client : Kwargs → Except Exc Bytes) (a : α) :
    (invokeAdapterTwice kwargsOf client a).1 = [kwargsOf a, kwargsOf a] ∧
    (invokeAdapterTwice kwargsOf client a).1.length = 2 ∧
    (invokeAdapterTwice kwargsOf client a).2.1 =
      (invokeAdapterTwice kwargsOf client a).2.2 :=
  ⟨rfl, rfl, rfl⟩

/-- C7: invoking get_daily_open_close_agg with ticker AAPL and date
2024-01-02 against a stub client returning the raw bytes of the JSON text
with status OK and close 185.64 yields exactly the object with field status
mapped to the string OK and field close mapped to the decimal number
18564 times ten to the minus two, which is 185.64. -/
theorem claimC7_scenario :
    (get_daily_open_close_agg
      (fun _ => Except.ok (strBytes "\x7b\"status\":\"OK\",\"close\":185.64\x7d"))
      ⟨"AAPL", "2024-01-02", none, none⟩).2 =
    Json.jobj [("status", Json.jstr "OK"), ("close", Json.jnum 18564 (-2))] := rfl

/-- C8: when the POLYGON_API_KEY environment variable is absent, startup
still succeeds: start_server returns an ok outcome that printed only the
non-fatal warning line, still computed the selected transport, and reached
the server.run call. -/
theorem claimC8_no_key_still_starts (env : String → Option String)
    (h : env "POLYGON_API_KEY" = none) :
    start_server env =
      .ok ⟨[apiKeyWarning], pyEnvOr (env "MCP_TRANSPORT") "stdio", true⟩ := by
  simp [start_server, h]

/-- Witness for C8 at the empty environment: with no variables set, startup
returns ok, prints the warning, and runs the server under stdio. -/
theorem claimC8_witness :
    ((fun _ : String => (none : Option String)) "POLYGON_API_KEY" = none) ∧
    start_server (fun _ => none) = .ok ⟨[apiKeyWarning], "stdio", true⟩ :=
  ⟨rfl, claimC8_no_key_still_starts (fun _ => none) rfl⟩

/-- C9: the transport selector is read from the MCP_TRANSPORT environment
variable — a non-empty value is used as the transport — and when the
variable is unset the server runs under the stdio transport. -/
theorem claimC9_transport_default (env : String → Option String) :
    (env "MCP_TRANSPORT" = none → startedTransport env = some "stdio") ∧
    (∀ s, env "MCP_TRANSPORT" = some s → s ≠ "" →
      startedTransport env = some s) := by
  constructor
  · intro h
    simp [startedTransport, start_server, pyEnvOr, h]
  · intro s hs hne
    simp [startedTransport, start_server, pyEnvOr, hs, hne]

/-- Witness for C9 at the empty environment: MCP_TRANSPORT unset yields the
stdio transport. -/
theorem claimC9_witness :
    startedTransport (fun _ => none) = some "stdio" :=
  (claimC9_transport_default (fun _ => none)).1 rfl

/-- C10: when MCP_TRANSPORT is set but equal to the empty string, startup
also falls back to the stdio transport, because the selector is the Python
or-expression over the environment value, for which the empty string is
falsy just like the unset case. -/
theorem claimC10_empty_transport (env : String → Option String)
    (h : env "MCP_TRANSPORT" = some "") :
    startedTransport env = some "stdio" := by
  simp [startedTransport, start_server, pyEnvOr, h]

/-- Witness for C10 at an environment where MCP_TRANSPORT is the empty
string: startup still selects the stdio transport. -/
theorem claimC10_witness :
    startedTransport (fun k => if k = "MCP_TRANSPORT" then some "" else none) =
      some "stdio" :=
  claimC10_empty_transport _ (by simp)

end PolygonMcp
